import Mathlib

/-!
Verification of the authorization core of the project-assignment server:
the RBAC permission check (middleware/auth.js: authorize), the JWT
authentication middleware post-verification load (authenticateJWT), the
login lockout state machine (routes/auth.js: POST /api/auth/login), the
password-reset flow (routes/auth.js), and the role permission replacement
(routes/roles.js: PUT /api/roles/:id/permissions).

All definitions are shallow embeddings of the JavaScript handlers: the
database is a list of rows, timestamps are natural numbers (milliseconds),
bcrypt verification is an abstract boolean-valued function passed in, and
JavaScript truthiness of a possibly-undefined property is an Option Bool.
-/

namespace ProjAssign

/-- One row of the RolePermission table (models/RolePermission.js):
a (role_id, module) pair with four independent CRUD booleans. -/
structure RolePermission where
  role_id : Nat
  module : String
  can_create : Bool
  can_read : Bool
  can_update : Bool
  can_delete : Bool
  deriving DecidableEq, Repr

/-- A Role row (models/Role.js) together with its included permissions,
as loaded by authenticateJWT via the Sequelize include. -/
structure Role where
  id : Nat
  name : String
  is_system_role : Bool
  permissions : List RolePermission
  deriving DecidableEq, Repr

/-- A User row (models/User.js) with the role association loaded.
Timestamps are milliseconds since epoch; nullable columns are Options. -/
structure User where
  id : Nat
  email : String
  password_hash : String
  status : String
  login_attempts : Nat
  locked_until : Option Nat
  last_login : Option Nat
  reset_password_token : Option String
  reset_password_expires : Option Nat
  role : Role
  deriving DecidableEq, Repr

/-- The fixed module enumeration of the RolePermission.module column. -/
def validModule (m : String) : Bool :=
  m == "dashboard" || m == "users" || m == "roles" || m == "enterprises" ||
  m == "employees" || m == "products" || m == "reports"

/-- Outcome of the authorize middleware: call next(), or respond with an
HTTP status and message. -/
inductive AuthzResult where
  | allow
  | deny (status : Nat) (message : String)
  deriving DecidableEq, Repr

/-- JavaScript dynamic property access modulePermission[key] on a
RolePermission row: a known can_ key yields its boolean, any other key
yields undefined (none). -/
def permField (p : RolePermission) (key : String) : Option Bool :=
  if key == "can_create" then some p.can_create
  else if key == "can_read" then some p.can_read
  else if key == "can_update" then some p.can_update
  else if key == "can_delete" then some p.can_delete
  else none

/-- JavaScript truthiness of a possibly-undefined boolean property:
undefined is falsy, a boolean is itself. -/
def truthy : Option Bool → Bool
  | none => false
  | some b => b

/-- middleware/auth.js authorize(module, action): the middleware body,
given req.user (none when no user or no role is attached). Super Admin
bypasses the table; otherwise the first permission row whose module
matches is consulted, and the dynamically-selected can_ field must be
truthy. -/
def authorize (module action : String) (user : Option User) : AuthzResult :=
  match user with
  | none => .deny 403 ("Access denied: No role assigned")
  | some u =>
    if u.role.name == "Super Admin" then .allow
    else
      match u.role.permissions.find? (fun p => p.module == module) with
      | none => .deny 403 ("Access denied: No permissions for " ++ module ++ " module")
      | some mp =>
        if truthy (permField mp ("can_" ++ action)) then .allow
        else .deny 403 ("Access denied: Cannot " ++ action ++ " " ++ module)

/-- Outcome of authenticateJWT after the token has verified: attach the
loaded user and call next(), or respond with a status and message. -/
inductive AuthnResult where
  | ok (u : User)
  | reject (status : Nat) (message : String)
  deriving DecidableEq, Repr

/-- middleware/auth.js authenticateJWT, the part after jwt.verify
succeeds: re-fetch the user by the embedded id (the argument is the
result of User.findByPk) and re-check current status. -/
def authenticateLoad (found : Option User) : AuthnResult :=
  match found with
  | none => .reject 401 ("User not found")
  | some u =>
    if u.status == "locked" then .reject 423 ("Account is locked")
    else if u.status == "inactive" then .reject 403 ("Account is inactive")
    else .ok u

/-- Sample rows used by the witness theorems. -/
def dashboardReadPerm : RolePermission :=
  ⟨2, "dashboard", false, true, false, false⟩

def superRole : Role := ⟨1, "Super Admin", true, []⟩

def userRole : Role := ⟨2, "User", false, [dashboardReadPerm]⟩

def sampleUser (r : Role) : User :=
  ⟨7, "u@example.com", "hash", "active", 0, none, none, none, none, r⟩

/-- Appending to the fixed prefix can_ is injective on the suffix. -/
theorem can_key_inj (a b : String) (h : ("can_" : String) ++ a = "can_" ++ b) :
    a = b := by
  cases a with
  | mk da =>
    cases b with
    | mk db =>
      have h2 : ("can_" : String).data ++ da = ("can_" : String).data ++ db :=
        congrArg String.data h
      exact congrArg String.mk (List.append_cancel_left h2)

/-- The dynamic key can_ ++ action hits none of the four known fields when
the action is none of create, read, update, delete: the JS property access
yields undefined. -/
theorem permField_unknown (p : RolePermission) (action : String)
    (h1 : action ≠ "create") (h2 : action ≠ "read")
    (h3 : action ≠ "update") (h4 : action ≠ "delete") :
    permField p ("can_" ++ action) = none := by
  have e1 : (("can_" : String) ++ action == "can_create") = false := by
    refine beq_eq_false_iff_ne.mpr (fun h => h1 ?_)
    exact can_key_inj action ("create") h
  have e2 : (("can_" : String) ++ action == "can_read") = false := by
    refine beq_eq_false_iff_ne.mpr (fun h => h2 ?_)
    exact can_key_inj action ("read") h
  have e3 : (("can_" : String) ++ action == "can_update") = false := by
    refine beq_eq_false_iff_ne.mpr (fun h => h3 ?_)
    exact can_key_inj action ("update") h
  have e4 : (("can_" : String) ++ action == "can_delete") = false := by
    refine beq_eq_false_iff_ne.mpr (fun h => h4 ?_)
    exact can_key_inj action ("delete") h
  simp [permField, e1, e2, e3, e4]

/-- C1: for an authenticated principal whose role name is not Super Admin,
authorize denies with 403 when no permission row matches the module, and
when a row matches, each CRUD action is allowed exactly when the row's
corresponding boolean flag is true. -/
theorem authorize_non_superadmin_spec (u : User) (module action : String)
    (hname : ¬ u.role.name = "Super Admin") :
    (u.role.permissions.find? (fun p => p.module == module) = none →
       authorize module action (some u) =
         .deny 403 ("Access denied: No permissions for " ++ module ++ " module")) ∧
    (∀ mp, u.role.permissions.find? (fun p => p.module == module) = some mp →
       (authorize module ("create") (some u) = .allow ↔ mp.can_create = true) ∧
       (authorize module ("read") (some u) = .allow ↔ mp.can_read = true) ∧
       (authorize module ("update") (some u) = .allow ↔ mp.can_update = true) ∧
       (authorize module ("delete") (some u) = .allow ↔ mp.can_delete = true)) := by
  constructor
  · intro hfind
    simp [authorize, hname, hfind]
  · intro mp hfind
    have ec : ("can_" : String) ++ "create" = "can_create" := rfl
    have er : ("can_" : String) ++ "read" = "can_read" := rfl
    have eu : ("can_" : String) ++ "update" = "can_update" := rfl
    have ed : ("can_" : String) ++ "delete" = "can_delete" := rfl
    refine ⟨?_, ?_, ?_, ?_⟩ <;>
      simp [authorize, hname, hfind, ec, er, eu, ed, permField, truthy]

/-- C1 witness: the spec example scenario — role User with a dashboard row
whose only true flag is can_read. -/
theorem authorize_non_superadmin_spec_witness :
    authorize ("dashboard") ("read") (some (sampleUser userRole)) = .allow ∧
    ¬ authorize ("dashboard") ("create") (some (sampleUser userRole)) = .allow ∧
    authorize ("users") ("read") (some (sampleUser userRole)) =
      .deny 403 ("Access denied: No permissions for " ++ "users" ++ " module") := by
  have h1 := authorize_non_superadmin_spec (sampleUser userRole) ("dashboard")
    ("read") (by decide)
  have h2 := authorize_non_superadmin_spec (sampleUser userRole) ("users")
    ("read") (by decide)
  refine ⟨?_, ?_, ?_⟩
  · exact ((h1.2 dashboardReadPerm (by decide)).2.1).mpr (by decide)
  · intro hc
    have := ((h1.2 dashboardReadPerm (by decide)).1).mp hc
    simp [dashboardReadPerm] at this
  · exact h2.1 (by decide)

/-- C2: when the principal's role name is exactly Super Admin, authorize
allows every module and action, whatever permission rows are stored. -/
theorem authorize_superadmin_allows (u : User) (module action : String)
    (h : u.role.name = "Super Admin") :
    authorize module action (some u) = .allow := by
  simp [authorize, h]

/-- C2 witness: a Super Admin principal with an empty permission table is
allowed an arbitrary module and action. -/
theorem authorize_superadmin_allows_witness :
    (sampleUser superRole).role.name = "Super Admin" ∧
    authorize ("users") ("delete") (some (sampleUser superRole)) = .allow :=
  ⟨by decide, authorize_superadmin_allows (sampleUser superRole) ("users")
    ("delete") (by decide)⟩

/-- C7: after JWT verification, the middleware rejects a missing principal
with 401, a locked principal with 423, an inactive principal with 403, and
otherwise attaches the loaded principal and proceeds. -/
theorem authenticateLoad_status_checks (u : User) :
    authenticateLoad none = .reject 401 ("User not found") ∧
    (u.status = "locked" →
       authenticateLoad (some u) = .reject 423 ("Account is locked")) ∧
    (u.status = "inactive" →
       authenticateLoad (some u) = .reject 403 ("Account is inactive")) ∧
    (¬ u.status = "locked" → ¬ u.status = "inactive" →
       authenticateLoad (some u) = .ok u) := by
  refine ⟨rfl, ?_, ?_, ?_⟩
  · intro h
    simp [authenticateLoad, h]
  · intro h
    have hne : ¬ u.status = "locked" := by
      rw [h]; decide
    simp [authenticateLoad, h, hne]
  · intro h1 h2
    simp [authenticateLoad, h1, h2]

/-- C7 witness: concrete locked, inactive and active principals each get
the specified outcome. -/
theorem authenticateLoad_status_checks_witness :
    authenticateLoad (some { sampleUser userRole with status := "locked" }) =
      .reject 423 ("Account is locked") ∧
    authenticateLoad (some { sampleUser userRole with status := "inactive" }) =
      .reject 403 ("Account is inactive") ∧
    authenticateLoad (some (sampleUser userRole)) = .ok (sampleUser userRole) := by
  refine ⟨?_, ?_, ?_⟩
  · exact (authenticateLoad_status_checks
      { sampleUser userRole with status := "locked" }).2.1 (by decide)
  · exact (authenticateLoad_status_checks
      { sampleUser userRole with status := "inactive" }).2.2.1 (by decide)
  · exact (authenticateLoad_status_checks (sampleUser userRole)).2.2.2
      (by decide) (by decide)

/-- C9: for a non-super-admin principal, an action outside the four CRUD
names denies with 403 (the dynamic can_ lookup is undefined, hence falsy,
and never throws in this total model), and a module outside the fixed
enumeration denies with 403 whenever the stored rows respect the module
enumeration. -/
theorem authorize_unknown_action_module_denies (u : User) (module action : String)
    (hname : ¬ u.role.name = "Super Admin") :
    ((action ≠ "create" ∧ action ≠ "read" ∧ action ≠ "update" ∧ action ≠ "delete") →
       ∃ msg, authorize module action (some u) = .deny 403 msg) ∧
    ((∀ p ∈ u.role.permissions, validModule p.module = true) →
       validModule module = false →
       authorize module action (some u) =
         .deny 403 ("Access denied: No permissions for " ++ module ++ " module")) := by
  constructor
  · rintro ⟨h1, h2, h3, h4⟩
    cases hfind : u.role.permissions.find? (fun p => p.module == module) with
    | none =>
      refine ⟨("Access denied: No permissions for " ++ module ++ " module"), ?_⟩
      simp [authorize, hname, hfind]
    | some mp =>
      refine ⟨("Access denied: Cannot " ++ action ++ " " ++ module), ?_⟩
      simp [authorize, hname, hfind, permField_unknown mp action h1 h2 h3 h4, truthy]
  · intro hrows hmod
    have hfind : u.role.permissions.find? (fun p => p.module == module) = none := by
      rw [List.find?_eq_none]
      intro p hp hbeq
      have : p.module = module := by simpa using hbeq
      rw [← this] at hmod
      rw [hrows p hp] at hmod
      exact Bool.noConfusion hmod
    simp [authorize, hname, hfind]

/-- C9 witness: the role User denied the unknown action archive on
dashboard, and denied on the unknown module audit. -/
theorem authorize_unknown_action_module_denies_witness :
    (∃ msg, authorize ("dashboard") ("archive") (some (sampleUser userRole)) =
       .deny 403 msg) ∧
    authorize ("audit") ("read") (some (sampleUser userRole)) =
      .deny 403 ("Access denied: No permissions for " ++ "audit" ++ " module") := by
  have h := authorize_unknown_action_module_denies (sampleUser userRole)
    ("dashboard") ("archive") (by decide)
  have h2 := authorize_unknown_action_module_denies (sampleUser userRole)
    ("audit") ("read") (by decide)
  refine ⟨h.1 (by refine ⟨?_, ?_, ?_, ?_⟩ <;> decide), ?_⟩
  · refine h2.2 ?_ (by decide)
    intro p hp
    simp only [sampleUser, userRole] at hp
    simp at hp
    rw [hp]
    decide

/-- Configuration read from the environment by the login handler:
MAX_LOGIN_ATTEMPTS (default 5) and LOCKOUT_TIME in milliseconds
(default 900000, i.e. 15 minutes). -/
structure LoginConfig where
  maxAttempts : Nat
  lockoutTime : Nat
  deriving DecidableEq, Repr

def defaultLoginConfig : LoginConfig := ⟨5, 900000⟩

/-- Response of the login handler: an error status with its message, or
the 200 response whose JWT is signed over the payload (userId, email). -/
inductive LoginResult where
  | failure (status : Nat) (message : String)
  | success (userId : Nat) (email : String)
  deriving DecidableEq, Repr

/-- The lock entry check of routes/auth.js login:
user.locked_until && user.locked_until > new Date(). -/
def lockActive (u : User) (now : Nat) : Bool :=
  match u.locked_until with
  | some t => decide (now < t)
  | none => false

/-- The update applied by the login handler on a failed credential check:
increment login_attempts and, when the new count reaches the configured
maximum, set locked_until to now + lockout time. -/
def failedLoginUpdate (cfg : LoginConfig) (now : Nat) (u : User) : User :=
  if cfg.maxAttempts ≤ u.login_attempts + 1 then
    { u with login_attempts := u.login_attempts + 1,
             locked_until := some (now + cfg.lockoutTime) }
  else
    { u with login_attempts := u.login_attempts + 1 }

/-- routes/auth.js POST /api/auth/login, from the user lookup onwards.
found is the result of User.findOne on the submitted email; verify is
bcrypt.compare as a boolean oracle; the second component is the user row
as stored after the handler ran (none when no row matched). -/
def login (cfg : LoginConfig) (verify : String → String → Bool) (now : Nat)
    (password : String) (found : Option User) : LoginResult × Option User :=
  match found with
  | none => (.failure 401 ("Invalid credentials"), none)
  | some u =>
    if lockActive u now then
      (.failure 423 ("Account is temporarily locked"), some u)
    else if verify password u.password_hash then
      (.success u.id u.email,
       some { u with login_attempts := 0, locked_until := none,
                     last_login := some now })
    else
      (.failure 401 ("Invalid credentials"), some (failedLoginUpdate cfg now u))

/-- Iterate the login handler with an always-wrong password at the given
sequence of times, threading the stored user state. -/
def runFailures (cfg : LoginConfig) (u : User) : List Nat → User
  | [] => u
  | t :: rest =>
      runFailures cfg
        (((login cfg (fun _ _ => false) t ("wrong") (some u)).2).getD u) rest

/-- Closed form of a maximal run of failed attempts: starting below the
threshold with no lock set, a run whose length brings the counter exactly
to the threshold leaves the counter at the threshold and the lock set to
the last attempt time plus the lockout duration; no other field changes. -/
theorem runFailures_append_single (cfg : LoginConfig) :
    ∀ (ts : List Nat) (u : User) (tN : Nat),
      u.locked_until = none →
      u.login_attempts + (ts.length + 1) = cfg.maxAttempts →
      runFailures cfg u (ts ++ [tN]) =
        { u with login_attempts := cfg.maxAttempts,
                 locked_until := some (tN + cfg.lockoutTime) } := by
  intro ts
  induction ts with
  | nil =>
    intro u tN hlock hcnt
    simp only [List.length_nil] at hcnt
    have hla : lockActive u tN = false := by simp [lockActive, hlock]
    have hge : cfg.maxAttempts ≤ u.login_attempts + 1 := by omega
    have hstep : runFailures cfg u ([] ++ [tN]) = failedLoginUpdate cfg tN u := by
      simp [runFailures, login, hla]
    rw [hstep]
    unfold failedLoginUpdate
    rw [if_pos hge]
    have h1 : u.login_attempts + 1 = cfg.maxAttempts := by omega
    rw [h1]
  | cons t ts ih =>
    intro u tN hlock hcnt
    simp only [List.length_cons] at hcnt
    have hla : lockActive u t = false := by simp [lockActive, hlock]
    have hlt : ¬ cfg.maxAttempts ≤ u.login_attempts + 1 := by omega
    have hstep : runFailures cfg u ((t :: ts) ++ [tN]) =
        runFailures cfg (failedLoginUpdate cfg t u) (ts ++ [tN]) := by
      simp [runFailures, login, hla]
    rw [hstep]
    unfold failedLoginUpdate
    rw [if_neg hlt]
    have hres := ih { u with login_attempts := u.login_attempts + 1 } tN hlock
      (by show u.login_attempts + 1 + (ts.length + 1) = cfg.maxAttempts; omega)
    exact hres

/-- C3: (1) with an active lock, a login attempt is rejected 423 with the
stored row unchanged, uniformly in the submitted password and in the
credential oracle (the password is not evaluated); (2) a failed credential
check increments the counter and sets the lock to now + duration exactly
when the new count reaches the configured threshold; (3) from a clean row,
a run of threshold consecutive failures leaves the counter at the
threshold and the lock set, after which any attempt — even with the
correct password — is rejected 423 while now is within the lock window,
and once the window has elapsed a correct password succeeds again. -/
theorem login_lockout_state_machine (cfg : LoginConfig) (u : User) (now : Nat) :
    (lockActive u now = true →
       ∀ (verify : String → String → Bool) (pwd : String),
         login cfg verify now pwd (some u) =
           (.failure 423 ("Account is temporarily locked"), some u)) ∧
    (∀ (verify : String → String → Bool) (pwd : String),
       lockActive u now = false → verify pwd u.password_hash = false →
         login cfg verify now pwd (some u) =
           (.failure 401 ("Invalid credentials"),
            some (failedLoginUpdate cfg now u)) ∧
         (failedLoginUpdate cfg now u).login_attempts = u.login_attempts + 1 ∧
         (failedLoginUpdate cfg now u).locked_until =
           (if cfg.maxAttempts ≤ u.login_attempts + 1
            then some (now + cfg.lockoutTime) else u.locked_until)) ∧
    (∀ (ts : List Nat) (tN : Nat),
       u.login_attempts = 0 → u.locked_until = none →
       ts.length + 1 = cfg.maxAttempts →
       ∀ v, v = runFailures cfg u (ts ++ [tN]) →
         v.login_attempts = cfg.maxAttempts ∧
         v.locked_until = some (tN + cfg.lockoutTime) ∧
         (∀ (verify : String → String → Bool) (pwd : String) (now3 : Nat),
            now3 < tN + cfg.lockoutTime →
            login cfg verify now3 pwd (some v) =
              (.failure 423 ("Account is temporarily locked"), some v)) ∧
         (∀ (verify : String → String → Bool) (pwd : String) (now4 : Nat),
            tN + cfg.lockoutTime ≤ now4 →
            verify pwd v.password_hash = true →
            (login cfg verify now4 pwd (some v)).1 = .success v.id v.email)) := by
  refine ⟨?_, ?_, ?_⟩
  · intro hla verify pwd
    simp [login, hla]
  · intro verify pwd hla hpwd
    refine ⟨by simp [login, hla, hpwd],
      by unfold failedLoginUpdate; split <;> rfl,
      by unfold failedLoginUpdate; split <;> rfl⟩
  · intro ts tN hcnt hlock hlen v hv
    have hrun := runFailures_append_single cfg ts u tN hlock (by omega)
    rw [hrun] at hv
    subst hv
    refine ⟨rfl, rfl, ?_, ?_⟩
    · intro verify pwd now3 h3
      have hla : lockActive
          { u with login_attempts := cfg.maxAttempts,
                   locked_until := some (tN + cfg.lockoutTime) } now3 = true := by
        simp [lockActive, h3]
      simp [login, hla]
    · intro verify pwd now4 h4 hok
      have hla : lockActive
          { u with login_attempts := cfg.maxAttempts,
                   locked_until := some (tN + cfg.lockoutTime) } now4 = false := by
        simp [lockActive]
        omega
      simp [login, hla, hok]

/-- C3 witness: with the default configuration, five wrong-password
attempts from a clean account set the lock, a sixth attempt with the
correct password at time 600 is rejected 423, and an attempt after the
window succeeds. -/
theorem login_lockout_state_machine_witness :
    (runFailures defaultLoginConfig (sampleUser userRole)
        ([100, 200, 300, 400] ++ [500])).locked_until = some (500 + 900000) ∧
    login defaultLoginConfig (fun _ h => h == "hash") 600 ("right password")
        (some (runFailures defaultLoginConfig (sampleUser userRole)
          ([100, 200, 300, 400] ++ [500]))) =
      (.failure 423 ("Account is temporarily locked"),
       some (runFailures defaultLoginConfig (sampleUser userRole)
         ([100, 200, 300, 400] ++ [500]))) := by
  have h := (login_lockout_state_machine defaultLoginConfig
      (sampleUser userRole) 0).2.2 [100, 200, 300, 400] 500
      (by decide) (by decide) (by decide)
      (runFailures defaultLoginConfig (sampleUser userRole)
        ([100, 200, 300, 400] ++ [500])) rfl
  exact ⟨h.2.1, h.2.2.1 (fun _ h2 => h2 == ("hash")) ("right password") 600
    (by decide)⟩

/-- The stored row after a successful credential check: counter zeroed,
lock cleared, last login recorded. -/
def successLoginUpdate (now : Nat) (u : User) : User :=
  { u with login_attempts := 0, locked_until := none, last_login := some now }

/-- Shared evaluation of the success branch of the login handler. -/
theorem login_success_branch (cfg : LoginConfig)
    (verify : String → String → Bool) (now : Nat) (pwd : String) (u : User)
    (hla : lockActive u now = false)
    (hpwd : verify pwd u.password_hash = true) :
    login cfg verify now pwd (some u) =
      (.success u.id u.email, some (successLoginUpdate now u)) := by
  simp [login, hla, hpwd, successLoginUpdate]

/-- C8: when no lock is active and the password verifies, the handler
stores login_attempts = 0, locked_until = null, last_login = now, and
responds success with the JWT payload (user id, email). -/
theorem login_success_resets (cfg : LoginConfig)
    (verify : String → String → Bool) (now : Nat) (pwd : String) (u : User)
    (hla : lockActive u now = false)
    (hpwd : verify pwd u.password_hash = true) :
    login cfg verify now pwd (some u) =
      (.success u.id u.email, some (successLoginUpdate now u)) ∧
    (successLoginUpdate now u).login_attempts = 0 ∧
    (successLoginUpdate now u).locked_until = none ∧
    (successLoginUpdate now u).last_login = some now :=
  ⟨login_success_branch cfg verify now pwd u hla hpwd, rfl, rfl, rfl⟩

/-- C8 witness: a clean account logging in with the correct password at
time 42 gets its counter zeroed, lock cleared and last_login recorded. -/
theorem login_success_resets_witness :
    lockActive (sampleUser userRole) 42 = false ∧
    (login defaultLoginConfig (fun _ h => h == "hash") 42 ("pw")
        (some (sampleUser userRole)) =
      (.success (sampleUser userRole).id (sampleUser userRole).email,
       some (successLoginUpdate 42 (sampleUser userRole))) ∧
     (successLoginUpdate 42 (sampleUser userRole)).login_attempts = 0 ∧
     (successLoginUpdate 42 (sampleUser userRole)).locked_until = none ∧
     (successLoginUpdate 42 (sampleUser userRole)).last_login = some 42) :=
  ⟨by decide, login_success_resets defaultLoginConfig (fun _ h => h == ("hash"))
    42 ("pw") (sampleUser userRole) (by decide) (by decide)⟩

/-- Replace only the status column of a user row. -/
def setStatus (u : User) (s : String) : User := { u with status := s }

/-- The login response does not depend on the stored status column. -/
theorem login_fst_setStatus (cfg : LoginConfig)
    (verify : String → String → Bool) (now : Nat) (pwd : String)
    (u : User) (s : String) :
    (login cfg verify now pwd (some (setStatus u s))).1 =
      (login cfg verify now pwd (some u)).1 := by
  by_cases h1 : lockActive u now = true
  · have h1s : lockActive (setStatus u s) now = true := by
      simpa [lockActive, setStatus] using h1
    simp [login, h1, h1s]
  · simp only [Bool.not_eq_true] at h1
    have h1s : lockActive (setStatus u s) now = false := by
      simpa [lockActive, setStatus] using h1
    by_cases h2 : verify pwd u.password_hash = true
    · have h2s : verify pwd (setStatus u s).password_hash = true := h2
      rw [login_success_branch cfg verify now pwd (setStatus u s) h1s h2s,
        login_success_branch cfg verify now pwd u h1 h2]
      rfl
    · simp only [Bool.not_eq_true] at h2
      have h2s : verify pwd (setStatus u s).password_hash = false := h2
      simp [login, h1, h1s, h2, h2s]

/-- C10: the login handler never reads the status column — its response is
identical for any stored status — so an inactive (or administratively
locked, with no timestamp lock) principal presenting the correct password
is issued the success response; the status is enforced afterwards, by the
per-request middleware, which rejects an inactive principal with 403. -/
theorem login_ignores_status (cfg : LoginConfig)
    (verify : String → String → Bool) (now : Nat) (pwd : String)
    (u : User) (s : String) :
    (login cfg verify now pwd (some (setStatus u s))).1 =
      (login cfg verify now pwd (some u)).1 ∧
    (lockActive u now = false → verify pwd u.password_hash = true →
       (login cfg verify now pwd (some (setStatus u ("inactive")))).1 =
         .success u.id u.email) ∧
    authenticateLoad (some (setStatus u ("inactive"))) =
      .reject 403 ("Account is inactive") := by
  refine ⟨login_fst_setStatus cfg verify now pwd u s, ?_, ?_⟩
  · intro hla hpwd
    rw [login_fst_setStatus cfg verify now pwd u ("inactive"),
      login_success_branch cfg verify now pwd u hla hpwd]
  · simp [authenticateLoad, setStatus]

/-- C10 witness: an inactive principal with the correct password and no
active lock receives the success response from login, yet is rejected 403
by the middleware. -/
theorem login_ignores_status_witness :
    (login defaultLoginConfig (fun _ h => h == "hash") 42 ("pw")
        (some (setStatus (sampleUser userRole) ("inactive")))).1 =
      .success (sampleUser userRole).id (sampleUser userRole).email ∧
    authenticateLoad (some (setStatus (sampleUser userRole) ("inactive"))) =
      .reject 403 ("Account is inactive") := by
  have h := login_ignores_status defaultLoginConfig (fun _ h2 => h2 == ("hash"))
    42 ("pw") (sampleUser userRole) ("inactive")
  exact ⟨h.2.1 (by decide) (by decide), h.2.2⟩

/-- Response of the reset-request handler: HTTP status, message, and the
resetToken field of the JSON body (none when the field is absent). -/
structure ResetRequestResponse where
  status : Nat
  message : String
  resetToken : Option String
  deriving DecidableEq, Repr

/-- routes/auth.js POST /api/auth/reset-password, from the user lookup
onwards: found is User.findOne on the submitted email; genToken is the
random token produced by crypto.randomBytes. When a user exists the
handler stores the token with a one hour expiry and returns the token in
the response body; otherwise it answers with a generic message. -/
def resetRequest (now : Nat) (genToken : String) (found : Option User) :
    ResetRequestResponse × Option User :=
  match found with
  | none =>
      (⟨200, "If the email exists, a reset link has been sent", none⟩, none)
  | some u =>
      (⟨200, "Password reset token generated", some genToken⟩,
       some { u with reset_password_token := some genToken,
                     reset_password_expires := some (now + 3600000) })

/-- The Sequelize where-clause of the reset-confirm lookup: the stored
token equals the supplied token and the stored expiry is strictly later
than now (a null token or null expiry never matches). -/
def resetTokenMatches (now : Nat) (token : String) (u : User) : Bool :=
  u.reset_password_token == some token &&
  (match u.reset_password_expires with
   | some e => decide (now < e)
   | none => false)

/-- Update the first list element satisfying p by f: the single row that
Sequelize findOne-then-update touches. -/
def updateFirst (p : User → Bool) (f : User → User) : List User → List User
  | [] => []
  | u :: rest => if p u then f u :: rest else u :: updateFirst p f rest

/-- The row update performed by the confirm handler on the matched user. -/
def resetConfirmUpdate (hash : String → String) (password : String)
    (u : User) : User :=
  { u with password_hash := hash password,
           reset_password_token := none,
           reset_password_expires := none,
           login_attempts := 0,
           locked_until := none }

/-- The reset-confirm handler as the spec intends it — the behavior
routes/auth.js POST /api/auth/reset-password/:token would have if auth.js
imported Op from sequelize: look up the user whose stored reset token
matches and has not expired; on a miss respond 400 leaving the table
unchanged; on a hit hash the new password and reset the matched row.
users is the User table; hash is bcrypt.hash as an oracle; the result is
the HTTP status with the table afterwards. -/
def resetConfirmFixed (hash : String → String) (now : Nat) (token password : String)
    (users : List User) : Nat × List User :=
  match users.find? (resetTokenMatches now token) with
  | none => (400, users)
  | some _ =>
      (200, updateFirst (resetTokenMatches now token)
        (resetConfirmUpdate hash password) users)

/-- routes/auth.js POST /api/auth/reset-password/:token as shipped:
auth.js never imports Op from sequelize (only dashboard.js, products.js
and the other resource routers do), so evaluating the where-clause object
literal at auth.js:205 throws ReferenceError before User.findOne runs;
the catch block answers 500 and the user table is neither read nor
written. The request data are received but never consulted. -/
def resetConfirm (_hash : String → String) (_now : Nat)
    (_token _password : String) (users : List User) : Nat × List User :=
  (500, users)

/-- A user matching the confirm where-clause at a later time also matches
at an earlier time: the token test is time-independent and the expiry
window only shrinks. -/
theorem resetTokenMatches_mono (now now2 : Nat) (token : String) (u : User)
    (h : now ≤ now2) (hm : resetTokenMatches now2 token u = true) :
    resetTokenMatches now token u = true := by
  unfold resetTokenMatches at hm ⊢
  rcases Bool.and_eq_true_iff.mp hm with ⟨h1, h2⟩
  refine Bool.and_eq_true_iff.mpr ⟨h1, ?_⟩
  cases he : u.reset_password_expires with
  | none => rw [he] at h2; exact h2
  | some e =>
    rw [he] at h2
    simp only [decide_eq_true_eq] at h2 ⊢
    omega

/-- The image of the first match under the update stays in the list. -/
theorem updateFirst_mem_of_find (p : User → Bool) (f : User → User) :
    ∀ (l : List User) (u : User), l.find? p = some u → f u ∈ updateFirst p f l := by
  intro l
  induction l with
  | nil => intro u h; simp [List.find?] at h
  | cons x rest ih =>
    intro u h
    cases hp : p x with
    | true =>
      rw [List.find?_cons_of_pos _ hp] at h
      cases h
      simp [updateFirst, hp]
    | false =>
      rw [List.find?_cons_of_neg _ (by simp [hp])] at h
      simp only [updateFirst, hp, Bool.false_eq_true, if_false]
      exact List.mem_cons_of_mem x (ih u h)

/-- After the first match of p is replaced by something that never
satisfies q, no element satisfies q, provided q implies p elementwise,
elements are pairwise distinct, and p has at most one solution. -/
theorem updateFirst_none_match (p q : User → Bool) (f : User → User)
    (hqf : ∀ x, q (f x) = false)
    (hqp : ∀ x, q x = true → p x = true) :
    ∀ (l : List User), l.Nodup →
      (∀ v ∈ l, ∀ w ∈ l, p v = true → p w = true → v = w) →
      ∀ y ∈ updateFirst p f l, q y = false := by
  intro l
  induction l with
  | nil => intro _ _ y hy; simp [updateFirst] at hy
  | cons x rest ih =>
    intro hnd huniq y hy
    have hndrest : rest.Nodup := (List.nodup_cons.mp hnd).2
    have hxnotin : x ∉ rest := (List.nodup_cons.mp hnd).1
    cases hp : p x with
    | true =>
      simp only [updateFirst, hp, if_true] at hy
      rcases List.mem_cons.mp hy with hfx | hyrest
      · rw [hfx]; exact hqf x
      · cases hq : q y with
        | false => rfl
        | true =>
          have hpy : p y = true := hqp y hq
          have : y = x := huniq y (List.mem_cons_of_mem x hyrest) x
            (List.mem_cons_self x rest) hpy hp
          rw [this] at hyrest
          exact absurd hyrest hxnotin
    | false =>
      simp only [updateFirst, hp, Bool.false_eq_true, if_false] at hy
      rcases List.mem_cons.mp hy with hfx | hyrest
      · cases hq : q y with
        | false => rfl
        | true =>
          rw [hfx] at hq
          have := hqp x hq
          rw [this] at hp
          exact absurd hp (by simp)
      · exact ih hndrest
          (fun v hv w hw => huniq v (List.mem_cons_of_mem x hv)
            w (List.mem_cons_of_mem x hw)) y hyrest

/-- Evaluation of the confirm handler when no row matches. -/
theorem resetConfirmFixed_eq_of_none (hash : String → String) (now : Nat)
    (token pwd : String) (users : List User)
    (hf : users.find? (resetTokenMatches now token) = none) :
    resetConfirmFixed hash now token pwd users = (400, users) := by
  unfold resetConfirmFixed
  rw [hf]

/-- Evaluation of the confirm handler when a row matches. -/
theorem resetConfirmFixed_eq_of_some (hash : String → String) (now : Nat)
    (token pwd : String) (users : List User) (u : User)
    (hf : users.find? (resetTokenMatches now token) = some u) :
    resetConfirmFixed hash now token pwd users =
      (200, updateFirst (resetTokenMatches now token)
        (resetConfirmUpdate hash pwd) users) := by
  unfold resetConfirmFixed
  rw [hf]

/-- The intended confirm behavior satisfies the spec's confirm-phase
contract: success exactly when some stored user matches the supplied
token with an unexpired expiry; a miss answers 400 and leaves the table
unchanged; on a hit the matched row gets the hashed new password, cleared
token and expiry, zeroed counter and cleared lock; and a consumed token
fails with 400 on a second confirm at any later time (assuming distinct
rows and at most one row matching the token). -/
theorem resetConfirmFixed_spec (hash : String → String) (now now2 : Nat)
    (token pwd : String) (users : List User)
    (hnd : users.Nodup)
    (huniq : ∀ v ∈ users, ∀ w ∈ users,
       resetTokenMatches now token v = true →
       resetTokenMatches now token w = true → v = w)
    (hmono : now ≤ now2) :
    ((resetConfirmFixed hash now token pwd users).1 = 200 ↔
       ∃ u ∈ users, resetTokenMatches now token u = true) ∧
    ((resetConfirmFixed hash now token pwd users).1 = 400 →
       (resetConfirmFixed hash now token pwd users).2 = users) ∧
    (∀ u, users.find? (resetTokenMatches now token) = some u →
       resetConfirmUpdate hash pwd u ∈ (resetConfirmFixed hash now token pwd users).2 ∧
       (resetConfirmUpdate hash pwd u).password_hash = hash pwd ∧
       (resetConfirmUpdate hash pwd u).reset_password_token = none ∧
       (resetConfirmUpdate hash pwd u).reset_password_expires = none ∧
       (resetConfirmUpdate hash pwd u).login_attempts = 0 ∧
       (resetConfirmUpdate hash pwd u).locked_until = none) ∧
    ((resetConfirmFixed hash now token pwd users).1 = 200 →
       ∀ (hash2 : String → String) (pwd2 : String),
         (resetConfirmFixed hash2 now2 token pwd2
           (resetConfirmFixed hash now token pwd users).2).1 = 400) := by
  refine ⟨?_, ?_, ?_, ?_⟩
  · cases hf : users.find? (resetTokenMatches now token) with
    | none =>
      rw [resetConfirmFixed_eq_of_none hash now token pwd users hf]
      rw [List.find?_eq_none] at hf
      constructor
      · intro h
        simp at h
      · rintro ⟨u, hu, hm⟩
        exact absurd hm (hf u hu)
    | some u =>
      rw [resetConfirmFixed_eq_of_some hash now token pwd users u hf]
      exact ⟨fun _ => ⟨u, List.mem_of_find?_eq_some hf, List.find?_some hf⟩,
        fun _ => rfl⟩
  · cases hf : users.find? (resetTokenMatches now token) with
    | none =>
      intro _
      rw [resetConfirmFixed_eq_of_none hash now token pwd users hf]
    | some u =>
      rw [resetConfirmFixed_eq_of_some hash now token pwd users u hf]
      intro h
      simp at h
  · intro u hf
    refine ⟨?_, rfl, rfl, rfl, rfl, rfl⟩
    rw [resetConfirmFixed_eq_of_some hash now token pwd users u hf]
    exact updateFirst_mem_of_find _ _ users u hf
  · intro h200 hash2 pwd2
    cases hf : users.find? (resetTokenMatches now token) with
    | none =>
      rw [resetConfirmFixed_eq_of_none hash now token pwd users hf] at h200
      simp at h200
    | some u =>
      rw [resetConfirmFixed_eq_of_some hash now token pwd users u hf]
      show (resetConfirmFixed hash2 now2 token pwd2
        (updateFirst (resetTokenMatches now token)
          (resetConfirmUpdate hash pwd) users)).1 = 400
      have hnone : (updateFirst (resetTokenMatches now token)
          (resetConfirmUpdate hash pwd) users).find?
          (resetTokenMatches now2 token) = none := by
        rw [List.find?_eq_none]
        intro y hy
        have hq := updateFirst_none_match (resetTokenMatches now token)
          (resetTokenMatches now2 token) (resetConfirmUpdate hash pwd)
          (fun x => by simp [resetTokenMatches, resetConfirmUpdate])
          (fun x hx => resetTokenMatches_mono now now2 token x hmono hx)
          users hnd huniq y hy
        simp [hq]
      rw [resetConfirmFixed_eq_of_none hash2 now2 token pwd2 _ hnone]

/-- A stored user holding an outstanding reset token tok123 expiring at
time 1000, currently with a failed-attempt count and an expired lock. -/
def resetUser : User :=
  ⟨9, "r@example.com", "oldhash", "active", 4, some 50, none,
   some "tok123", some 1000, userRole⟩

/-- Concrete instance of the intended confirm behavior: confirming with
the stored token before its expiry succeeds, and a second confirm with
the same token afterwards fails 400. -/
theorem resetConfirmFixed_spec_witness :
    (resetConfirmFixed (fun s => s ++ "-hashed") 500 ("tok123") ("NewPass1!")
        [resetUser, sampleUser userRole]).1 = 200 ∧
    (resetConfirmFixed (fun s => s ++ "-hashed") 600 ("tok123") ("Again2@")
        (resetConfirmFixed (fun s => s ++ "-hashed") 500 ("tok123") ("NewPass1!")
          [resetUser, sampleUser userRole]).2).1 = 400 := by
  have h := resetConfirmFixed_spec (fun s => s ++ ("-hashed")) 500 600 ("tok123")
    ("NewPass1!") [resetUser, sampleUser userRole]
    (by decide) (by decide) (by decide)
  refine ⟨h.1.mpr ⟨resetUser, by decide, by decide⟩, ?_⟩
  exact h.2.2.2 (h.1.mpr ⟨resetUser, by decide, by decide⟩)
    (fun s => s ++ ("-hashed")) ("Again2@")

/-- C4: the claim fails on the code — the missing Op import makes every
reset-confirm invocation answer 500 with the user table untouched, so at
an input where the claim demands success (a stored matching token tok123,
unexpired at time 500) the handler neither succeeds nor answers 400 and
consumes nothing, while the intended query on the same input answers
200. -/
theorem resetConfirm_crashes_500 :
    resetConfirm (fun s => s ++ "-hashed") 500 ("tok123") ("NewPass1!")
        [resetUser, sampleUser userRole] =
      (500, [resetUser, sampleUser userRole]) ∧
    ¬ (resetConfirm (fun s => s ++ "-hashed") 500 ("tok123") ("NewPass1!")
        [resetUser, sampleUser userRole]).1 = 200 ∧
    ¬ (resetConfirm (fun s => s ++ "-hashed") 500 ("tok123") ("NewPass1!")
        [resetUser, sampleUser userRole]).1 = 400 ∧
    (resetConfirmFixed (fun s => s ++ "-hashed") 500 ("tok123") ("NewPass1!")
        [resetUser, sampleUser userRole]).1 = 200 := by
  have h := resetConfirmFixed_spec (fun s => s ++ ("-hashed")) 500 600
    ("tok123") ("NewPass1!") [resetUser, sampleUser userRole]
    (by decide) (by decide) (by decide)
  exact ⟨rfl, by decide, by decide, h.1.mpr ⟨resetUser, by decide, by decide⟩⟩

/-- C6: the claim fails on the code — routes/auth.js answers a missing
email with the generic message but an existing email with a different
message and with the generated reset token included in the body (the
inline comment admits it must be removed in production). -/
theorem resetRequest_reveals_existence :
    (resetRequest 0 ("tok") (some (sampleUser userRole))).1.message ≠
      (resetRequest 0 ("tok") none).1.message ∧
    (resetRequest 0 ("tok") (some (sampleUser userRole))).1.resetToken =
      some ("tok") ∧
    (resetRequest 0 ("tok") none).1.resetToken = none := by
  refine ⟨by decide, rfl, rfl⟩

/-- routes/roles.js PUT /api/roles/:id/permissions: roleFound is
Role.findByPk on the path id; newPerms is req.body.permissions (none when
absent or not an array); insertOk tells whether RolePermission.bulkCreate
succeeds (false models a constraint violation on the new rows, answered
500 by the catch block); table is the whole RolePermission table. The
handler deletes the role's rows unconditionally and only then inserts the
new ones, with no enclosing transaction, so a failed insert is not rolled
back. -/
def putRolePermissions (roleFound : Option Role)
    (newPerms : Option (List RolePermission)) (insertOk : Bool)
    (table : List RolePermission) : Nat × List RolePermission :=
  match roleFound with
  | none => (404, table)
  | some r =>
    if r.is_system_role then (403, table)
    else
      let afterDelete := table.filter (fun p => !(p.role_id == r.id))
      match newPerms with
      | none => (200, afterDelete)
      | some ps =>
        if insertOk then
          (200, afterDelete ++ ps.map (fun p => { p with role_id := r.id }))
        else (500, afterDelete)

/-- The permission rows stored for one role. -/
def rolePerms (roleId : Nat) (table : List RolePermission) : List RolePermission :=
  table.filter (fun p => p.role_id == roleId)

def editorRole : Role := ⟨3, "Editor", false, []⟩

def oldPerm : RolePermission := ⟨3, "users", true, true, true, true⟩

def newPerm : RolePermission := ⟨3, "products", false, true, false, false⟩

/-- C5: the claim fails on the code — when the insert of the new rows
fails after the delete, the handler answers 500 and the role is left with
an empty permission set: neither the complete previous set nor the
complete new set. A transaction required by the spec is absent. -/
theorem putRolePermissions_not_atomic :
    (putRolePermissions (some editorRole) (some [newPerm]) false [oldPerm]).1
      = 500 ∧
    rolePerms editorRole.id
      (putRolePermissions (some editorRole) (some [newPerm]) false [oldPerm]).2
      = [] ∧
    ¬ rolePerms editorRole.id
      (putRolePermissions (some editorRole) (some [newPerm]) false [oldPerm]).2
      = rolePerms editorRole.id [oldPerm] ∧
    ¬ rolePerms editorRole.id
      (putRolePermissions (some editorRole) (some [newPerm]) false [oldPerm]).2
      = rolePerms editorRole.id
          (putRolePermissions (some editorRole) (some [newPerm]) true [oldPerm]).2
    := by decide

end ProjAssign
